import Mathlib

/-!
Verification development for the LoRA dataset-creation tool.

The definitions below are a shallow embedding of the Python sources:
  * `src/image_generator.py`  — Wavespeed request building, retry loop,
    response-shape resolution (`ImageGenerator`);
  * `src/dataset_creator.py`  — the per-item pipeline loop, provider-profile
    override/restore, artifact bookkeeping, caption pass, and the
    unique-file-path resolver (`DatasetCreator`).

Python strings are modelled as Lean `String` (operating on the `data`
character list, which matches Python per-character semantics); bytes are
`List Nat`; JSON dictionaries that the code inspects are modelled as
structures of `Option` fields (a `none` field stands for an absent key).
Mutable `self.config` state is threaded explicitly.
-/

/-! ## String utilities (models of Python `in`, `.lower()`, `.replace()`, `.split()`, `str(int)`) -/

/-- Model of Python substring test `sub in s`. -/
def strContains (s sub : String) : Bool := decide (sub.data <:+: s.data)

/-- Model of Python `s.lower()` (per-character lowering). -/
def strLower (s : String) : String := ⟨s.data.map Char.toLower⟩

/-- One fuelled pass of replace-all over a character list; fuel equal to the
input length is enough for a non-empty pattern, since every step consumes at
least one input character. -/
def replaceFuel (pat rep : List Char) : Nat → List Char → List Char
  | _, [] => []
  | 0, l => l
  | fuel + 1, c :: rest =>
    if pat.isPrefixOf (c :: rest) then
      rep ++ replaceFuel pat rep fuel (List.drop (pat.length - 1) rest)
    else
      c :: replaceFuel pat rep fuel rest

/-- Model of Python `s.replace(pat, rep)` (replace every occurrence, left to
right, non-overlapping). -/
def strReplace (s pat rep : String) : String :=
  ⟨replaceFuel pat.data rep.data s.data.length s.data⟩

/-- Fuelled split on a separator; `acc` holds the current chunk reversed. -/
def splitFuel (sep : List Char) : Nat → List Char → List Char → List (List Char)
  | _, acc, [] => [acc.reverse]
  | 0, acc, l => [acc.reverse ++ l]
  | fuel + 1, acc, c :: rest =>
    if sep.isPrefixOf (c :: rest) then
      acc.reverse :: splitFuel sep fuel [] (List.drop (sep.length - 1) rest)
    else
      splitFuel sep fuel (c :: acc) rest

/-- Model of Python `s.split(sep)` for a non-empty separator. -/
def strSplitOn (s sep : String) : List String :=
  (splitFuel sep.data s.data.length [] s.data).map (fun l => ⟨l⟩)

/-- Decimal digit character. -/
def digitChar (d : Nat) : Char := Char.ofNat (48 + d)

/-- Little-endian decimal digits of `n`, with fuel (`fuel > n` is enough). -/
def natDigitsAux : Nat → Nat → List Nat
  | 0, _ => []
  | fuel + 1, n => if n = 0 then [] else (n % 10) :: natDigitsAux fuel (n / 10)

/-- Model of Python `str(n)` for a natural number. -/
def natRepr (n : Nat) : String :=
  if n = 0 then "0" else ⟨((natDigitsAux (n + 1) n).reverse.map digitChar)⟩

/-- Value of a little-endian digit list. -/
def digitsVal : List Nat → Nat
  | [] => 0
  | d :: ds => d + 10 * digitsVal ds

/-! ## Base64 (model of Python `base64.b64encode(...).decode("utf-8")`) -/

/-- Character of the standard base64 alphabet at index `n < 64`. -/
def b64Char (n : Nat) : Char :=
  if n < 26 then Char.ofNat (65 + n)
  else if n < 52 then Char.ofNat (97 + (n - 26))
  else if n < 62 then Char.ofNat (48 + (n - 52))
  else if n = 62 then Char.ofNat 43
  else Char.ofNat 47

/-- Standard base64 of a byte list (chunks of three, `=` padding). -/
def b64EncodeList : List Nat → List Char
  | [] => []
  | [a] => [b64Char (a / 4 % 64), b64Char (a % 4 * 16), Char.ofNat 61, Char.ofNat 61]
  | [a, b] => [b64Char (a / 4 % 64), b64Char ((a % 4 * 16 + b / 16) % 64),
               b64Char (b % 16 * 4), Char.ofNat 61]
  | a :: b :: c :: rest =>
      b64Char (a / 4 % 64) :: b64Char ((a % 4 * 16 + b / 16) % 64) ::
      b64Char ((b % 16 * 4 + c / 64) % 64) :: b64Char (c % 64) ::
      b64EncodeList rest

/-- Model of `base64.b64encode(img_data).decode("utf-8")`. -/
def b64encode (bytes : List Nat) : String := ⟨b64EncodeList bytes⟩

/-! ## Model-name classification
`image_generator.py:53`  dispatch:  `if "image-to-video" in model or "/video" in model`
`dataset_creator.py:284` pipeline:  the same two tests `or "video" in model.lower()`. -/

/-- `ImageGenerator._generate_with_wavespeed` dispatch test (image_generator.py:53). -/
def genDispatchIsVideo (model : String) : Bool :=
  strContains model "image-to-video" || strContains model "/video"

/-- `DatasetCreator.process_dataset` video test (dataset_creator.py:284-286),
without the `image_provider == "wavespeed"` guard, which is handled separately
in the pipeline model below. -/
def pipelineIsVideo (model : String) : Bool :=
  strContains model "image-to-video" || strContains model "/video" ||
    strContains (strLower model) "video"

/-! ## Wavespeed response bodies (image_generator.py:199-293) -/

/-- The fields of a parsed JSON dictionary that `_make_wavespeed_request`
inspects; `none` models an absent key.  (A key present with a JSON `null` or
other falsy value behaves, for every check the code performs on these fields,
like `some ""` for the truthiness checks and like presence for the `in`
checks; the code only ever reads these fields as strings or a string list.) -/
structure WsDict where
  status : Option String := none
  error : Option String := none
  video : Option String := none
  video_url : Option String := none
  image : Option String := none
  image_url : Option String := none
  outputs : Option (List String) := none
  video_base64 : Option String := none
  image_base64 : Option String := none
deriving DecidableEq

/-- A parsed 2xx JSON body: the optional `data` envelope plus the top-level
fields themselves (`if "data" in result: ... result = data`). -/
structure WsBody where
  data : Option WsDict := none
  top : WsDict := {}
deriving DecidableEq

/-- Python truthiness of an optional string value. -/
def truthy : Option String → Bool
  | none => false
  | some s => s ≠ ""

/-- `result.get("status") == "failed" or result.get("error")`
(image_generator.py:205 and :221). -/
def hasApiError (d : WsDict) : Bool :=
  (d.status == some "failed") || truthy d.error

/-- Envelope unwrapping (image_generator.py:202, :218): if a `data` key is
present, all further processing uses the `data` dictionary. -/
def unwrap (b : WsBody) : WsDict :=
  match b.data with
  | some d => d
  | none => b.top

/-! ## Result resolution on a clean 2xx (image_generator.py:234-293) -/

/-- The video-URL candidate chain (image_generator.py:237-244):
`video`, then `video_url`, then `outputs[0]` when `outputs` is a non-empty list. -/
def urlCandidateVideo (d : WsDict) : Option String :=
  if d.video.isSome then d.video
  else if d.video_url.isSome then d.video_url
  else match d.outputs with
       | some (x :: _) => some x
       | _ => none

/-- The image-URL candidate chain (image_generator.py:268-275):
`image`, then `image_url`, then `outputs[0]` when `outputs` is a non-empty list. -/
def urlCandidateImage (d : WsDict) : Option String :=
  if d.image.isSome then d.image
  else if d.image_url.isSome then d.image_url
  else match d.outputs with
       | some (x :: _) => some x
       | _ => none

/-- `ext = video_url.split(".")[-1].split("?")[0]` when the URL has a dot,
else `"mp4"` (image_generator.py:250-252). -/
def urlExt (url : String) : String :=
  if strContains url "." then
    strSplitOn ((strSplitOn url ".").getLastD "") "?" |>.headD ""
  else "mp4"

/-- What the success path of `_make_wavespeed_request` does with the unwrapped
dictionary: fetch a remote URL, decode inline base64, or record the raw body
next to the output path and raise `ValueError` (the shape mismatch). The
stored path is the file the code writes. -/
inductive SaveOutcome where
  | savedFromUrl (url : String) (path : String)
  | savedFromBase64 (path : String)
  | shapeMismatch (debugPath : String)
deriving DecidableEq

/-- Result resolution (image_generator.py:234-293).  The remote GET for a URL
candidate is modelled as succeeding; its own failure modes are outside the
claims under verification. -/
def resolveResult (isVideo : Bool) (d : WsDict) (outputPath : String) : SaveOutcome :=
  if isVideo then
    match urlCandidateVideo d with
    | some u =>
      if u ≠ "" then
        .savedFromUrl u (strReplace (strReplace outputPath ".png" ("." ++ urlExt u))
                           ".jpg" ("." ++ urlExt u))
      else if d.video_base64.isSome then
        .savedFromBase64 (strReplace (strReplace outputPath ".png" ".mp4") ".jpg" ".mp4")
      else
        .shapeMismatch (strReplace (strReplace outputPath ".png" "_response.json")
                          ".mp4" "_response.json")
    | none =>
      if d.video_base64.isSome then
        .savedFromBase64 (strReplace (strReplace outputPath ".png" ".mp4") ".jpg" ".mp4")
      else
        .shapeMismatch (strReplace (strReplace outputPath ".png" "_response.json")
                          ".mp4" "_response.json")
  else
    match urlCandidateImage d with
    | some u =>
      if u ≠ "" then
        .savedFromUrl u outputPath
      else if d.image_base64.isSome then
        .savedFromBase64 outputPath
      else
        .shapeMismatch (strReplace (strReplace outputPath ".png" "_response.json")
                          ".jpg" "_response.json")
    | none =>
      if d.image_base64.isSome then
        .savedFromBase64 outputPath
      else
        .shapeMismatch (strReplace (strReplace outputPath ".png" "_response.json")
                          ".jpg" "_response.json")

/-! ## The retry loop (image_generator.py:155-371)

One attempt of the `while attempt < max_error_attempts` loop either receives a
parsed HTTP response or raises one of the `requests` exception classes the
handlers distinguish. -/

/-- What a single `session.post` attempt produces. -/
inductive AttemptOutcome where
  | http (status : Nat) (body : WsBody)
  | timeoutExc
  | httpErrorExc (status : Option Nat)
  | networkExc
  | otherExc
deriving DecidableEq

/-- How one attempt ends inside the loop body.  `retryClass` is the
loop-continuation signal: the inline `continue`s for 5xx and API-reported
errors, and the `except (RuntimeError, ValueError)` handler
(image_generator.py:352-358), which catches the `RuntimeError` raised for a
4xx status (line 196) and the `ValueError` raised for a shape mismatch (lines
265/290) and continues when attempts remain.  `wrote` carries the
`_response.json` path when the attempt wrote the raw body to disk. -/
inductive AttemptClass where
  | success (save : SaveOutcome)
  | retryClass (wrote : Option String)
  | fatalClass
deriving DecidableEq

/-- Classification of a single attempt, tracing the `try` body and the
`except` clauses of `_make_wavespeed_request`. -/
def classifyAttempt (isVideo : Bool) (outPath : String) (o : AttemptOutcome) : AttemptClass :=
  match o with
  | .http status body =>
    if status ≥ 500 then .retryClass none
    else if status ≥ 400 then
      -- line 196 raises RuntimeError; the handler at line 352 catches it and,
      -- when attempts remain, continues the loop.
      .retryClass none
    else
      let d := unwrap body
      if hasApiError d then .retryClass none
      else
        match resolveResult isVideo d outPath with
        | .shapeMismatch p => .retryClass (some p)
        | s => .success s
  | .timeoutExc => .fatalClass          -- line 295-300: raise, no retry
  | .httpErrorExc st =>
    match st with
    | some c => if 500 ≤ c ∧ c < 600 then .retryClass none else .fatalClass
    | none => .fatalClass
  | .networkExc => .fatalClass          -- line 337-350: raise, no retry
  | .otherExc => .fatalClass            -- line 360-365: raise

/-- Terminal result of the call loop. -/
inductive FinalResult where
  | completed (save : SaveOutcome) (attempt : Nat)
  | failed (attempt : Nat)
deriving DecidableEq

/-- The loop from attempt `k` with `fuel` further attempts allowed, tracking
the `_response.json` files written on the way (attempt number and path). -/
def wsLoopAux (isVideo : Bool) (outPath : String) (o : Nat → AttemptOutcome) :
    Nat → Nat → List (Nat × String) → FinalResult × List (Nat × String)
  | k, fuel, acc =>
    match classifyAttempt isVideo outPath (o k) with
    | .success s => (.completed s k, acc)
    | .fatalClass => (.failed k, acc)
    | .retryClass w =>
      let acc2 := match w with
                  | some p => acc ++ [(k, p)]
                  | none => acc
      match fuel with
      | 0 => (.failed k, acc2)
      | fuel + 1 => wsLoopAux isVideo outPath o (k + 1) fuel acc2

/-- `_make_wavespeed_request`: `max_error_attempts = 3`, attempts numbered
from 1, so at most two loop continuations after the first attempt. -/
def wsLoop (isVideo : Bool) (outPath : String) (o : Nat → AttemptOutcome) :
    FinalResult × List (Nat × String) :=
  wsLoopAux isVideo outPath o 1 2 []

/-! ## Configuration (config.py `set_minimal_defaults` field set, restricted to
the fields the pipeline and generators read).  Python `None` and `""` are both
falsy for every check the code performs on these string fields, so unset
values are modelled as `""`. -/

structure Config where
  ai_provider : String := ""
  gemini_model : String := ""
  openai_model : String := ""
  grok_model : String := ""
  wavespeed_model : String := ""
  caption_provider : String := ""
  openai_caption_model : String := ""
  grok_caption_model : String := ""
  ai_provider_nsfw : String := ""
  ai_provider_normal : String := ""
  gemini_model_nsfw : String := ""
  gemini_model_normal : String := ""
  openai_model_nsfw : String := ""
  openai_model_normal : String := ""
  grok_model_nsfw : String := ""
  grok_model_normal : String := ""
  wavespeed_model_nsfw : String := ""
  wavespeed_model_normal : String := ""
  caption_provider_nsfw : String := ""
  caption_provider_normal : String := ""
  openai_caption_model_nsfw : String := ""
  openai_caption_model_normal : String := ""
  grok_caption_model_nsfw : String := ""
  grok_caption_model_normal : String := ""
  nsfw_enabled : Bool := false
  generate_captions : Bool := false
  trigger_name : String := ""
  image_provider : String := ""
  output_folder : String := ""
  wavespeed_resolution : String := ""
  wavespeed_output_format : String := ""
  wavespeed_api_key : String := ""
  gemini_api_key : String := ""
  openai_api_key : String := ""
  grok_api_key : String := ""
deriving DecidableEq

/-! ## Request payloads (image_generator.py:59-138) -/

/-- `prompt.replace("\n", " ").replace("\r", " ")` (image_generator.py:72, :123). -/
def cleanPrompt (p : String) : String :=
  strReplace (strReplace p "\n" " ") "\r" " "

/-- `resolution_map.get(resolution, "1920*1920")` (image_generator.py:89-95). -/
def resolutionMap (tier : String) : String :=
  if tier = "1k" then "1920*1920"
  else if tier = "2k" then "2048*2048"
  else if tier = "4k" then "4096*4096"
  else "1920*1920"

/-- `is_seedream = "seedream" in model.lower()` (image_generator.py:82). -/
def isSeedream (model : String) : Bool := strContains (strLower model) "seedream"

/-- The payload of `_generate_image_edit_wavespeed` (image_generator.py:74-104). -/
structure ImageEditPayload where
  enable_base64_output : Bool
  enable_sync_mode : Bool
  images : List String
  prompt : String
  size : Option String
  resolution : Option String
  output_format : Option String
deriving DecidableEq

/-- The payload of `_generate_video_wavespeed` (image_generator.py:125-130). -/
structure VideoPayload where
  enable_base64_output : Bool
  enable_sync_mode : Bool
  image : String
  prompt : String
deriving DecidableEq

/-- `_generate_image_edit_wavespeed` (image_generator.py:59-112): up to two
reference images then the sample image, base64-encoded; synchronous mode;
Seedream models get a `size` field from the tier map, other models get the
tier itself as `resolution` when it is set. -/
def buildImageEditPayload (cfg : Config) (refImages : List (List Nat))
    (sampleImage : List Nat) (prompt : String) : ImageEditPayload :=
  { enable_base64_output := false
    enable_sync_mode := true
    images := (refImages.take 2).map b64encode ++ [b64encode sampleImage]
    prompt := cleanPrompt prompt
    size := if isSeedream cfg.wavespeed_model
            then some (resolutionMap cfg.wavespeed_resolution) else none
    resolution := if !isSeedream cfg.wavespeed_model && cfg.wavespeed_resolution != ""
                  then some cfg.wavespeed_resolution else none
    output_format := if cfg.wavespeed_output_format != ""
                     then some cfg.wavespeed_output_format else none }

/-- `_generate_video_wavespeed` (image_generator.py:114-138): only the sample
image, asynchronous mode; the reference images are received but never used. -/
def buildVideoPayload (refImages : List (List Nat)) (sampleImage : List Nat)
    (prompt : String) : VideoPayload :=
  let _ := refImages
  { enable_base64_output := false
    enable_sync_mode := false
    image := b64encode sampleImage
    prompt := cleanPrompt prompt }

/-! ## The per-item pipeline loop (dataset_creator.py:169-341) -/

/-- The eight fields saved at dataset_creator.py:188-196 and written back at
:294-302. -/
structure SavedProfile where
  ai_provider : String
  gemini_model : String
  openai_model : String
  grok_model : String
  wavespeed_model : String
  caption_provider : String
  openai_caption_model : String
  grok_caption_model : String
deriving DecidableEq

/-- Snapshot of the baseline profile (dataset_creator.py:188-196). -/
def saveProfile (c : Config) : SavedProfile :=
  { ai_provider := c.ai_provider
    gemini_model := c.gemini_model
    openai_model := c.openai_model
    grok_model := c.grok_model
    wavespeed_model := c.wavespeed_model
    caption_provider := c.caption_provider
    openai_caption_model := c.openai_caption_model
    grok_caption_model := c.grok_caption_model }

/-- Write the snapshot back (dataset_creator.py:294-302). -/
def restoreProfile (c : Config) (s : SavedProfile) : Config :=
  { c with
    ai_provider := s.ai_provider
    gemini_model := s.gemini_model
    openai_model := s.openai_model
    grok_model := s.grok_model
    wavespeed_model := s.wavespeed_model
    caption_provider := s.caption_provider
    openai_caption_model := s.openai_caption_model
    grok_caption_model := s.grok_caption_model }

/-- NSFW override application (dataset_creator.py:200-219). -/
def applyNsfw (c : Config) : Config :=
  let c1 :=
    if c.ai_provider_nsfw != "" then
      let c0 := { c with ai_provider := c.ai_provider_nsfw }
      if c.ai_provider_nsfw = "gemini" then { c0 with gemini_model := c.gemini_model_nsfw }
      else if c.ai_provider_nsfw = "openai" then { c0 with openai_model := c.openai_model_nsfw }
      else if c.ai_provider_nsfw = "grok" then { c0 with grok_model := c.grok_model_nsfw }
      else c0
    else c
  let c2 :=
    if c1.wavespeed_model_nsfw != "" then { c1 with wavespeed_model := c1.wavespeed_model_nsfw }
    else c1
  if c2.caption_provider_nsfw != "" then
    let c3 := { c2 with caption_provider := c2.caption_provider_nsfw }
    if c2.caption_provider_nsfw = "openai" then
      { c3 with openai_caption_model := c2.openai_caption_model_nsfw }
    else if c2.caption_provider_nsfw = "grok" then
      { c3 with grok_caption_model := c2.grok_caption_model_nsfw }
    else c3
  else c2

/-- Normal-content override application (dataset_creator.py:224-243). -/
def applyNormal (c : Config) : Config :=
  let c1 :=
    if c.ai_provider_normal != "" then
      let c0 := { c with ai_provider := c.ai_provider_normal }
      if c.ai_provider_normal = "gemini" then { c0 with gemini_model := c.gemini_model_normal }
      else if c.ai_provider_normal = "openai" then { c0 with openai_model := c.openai_model_normal }
      else if c.ai_provider_normal = "grok" then { c0 with grok_model := c.grok_model_normal }
      else c0
    else c
  let c2 :=
    if c1.wavespeed_model_normal != "" then { c1 with wavespeed_model := c1.wavespeed_model_normal }
    else c1
  if c2.caption_provider_normal != "" then
    let c3 := { c2 with caption_provider := c2.caption_provider_normal }
    if c2.caption_provider_normal = "openai" then
      { c3 with openai_caption_model := c2.openai_caption_model_normal }
    else if c2.caption_provider_normal = "grok" then
      { c3 with grok_caption_model := c2.grok_caption_model_normal }
    else c3
  else c2

/-- Which step of one item raises, if any.  This injects the behaviour of the
external calls (file read, prompt provider, local write, generation provider);
each of these sits inside the per-item `try` of dataset_creator.py:172-341. -/
inductive FailPhase where
  | readSample
  | genPrompt
  | writePrompt
  | genMedia
deriving DecidableEq

/-- One entry of the sample-file list, together with the injected behaviour of
the external calls made while processing it. -/
structure SampleItem where
  name : String
  path : String
  content_type : Option String := none
  failAt : Option FailPhase := none
deriving DecidableEq

/-- Override selection for a resolved content type (dataset_creator.py:198-250):
exactly `"nsfw"` and `"normal"` select their override sets, anything else
keeps the main settings. -/
def applyContent (cfg : Config) (ct : Option String) : Config :=
  if ct == some "nsfw" then applyNsfw cfg
  else if ct == some "normal" then applyNormal cfg
  else cfg

/-- Content-type resolution (dataset_creator.py:174-181): the listed value if
truthy, otherwise derived from the lowered path. -/
def contentTypeOf (it : SampleItem) : Option String :=
  if truthy it.content_type then it.content_type
  else if strContains (strLower it.path) "nsfw" then some "nsfw"
  else if strContains (strLower it.path) "normal" then some "normal"
  else none

/-- One recorded artifact (dataset_creator.py:332-336). -/
structure Artifact where
  path : String
  original_name : String
  index : Nat
deriving DecidableEq

/-- `Path(name).stem` for a plain file name. -/
def stemOf (s : String) : String :=
  let parts := strSplitOn s "."
  if parts.length ≤ 1 then s else String.intercalate "." parts.dropLast

/-- Python `"%04d"`-style zero padding of an index. -/
def pad4 (n : Nat) : String :=
  ⟨List.replicate (4 - (natRepr n).data.length) (Char.ofNat 48)⟩ ++ natRepr n

/-- Observations recorded for one item: whether the NSFW-disabled skip fired,
whether an exception was caught at the loop boundary (line 338), and the
configuration in force when the output path was computed (lines 304-317;
`none` when the item failed before reaching that point). -/
structure ItemObs where
  itemName : String
  skipped : Bool
  failed : Bool
  cfgAtPath : Option Config
deriving DecidableEq

/-- Whether the pipeline treats the current item as producing video
(dataset_creator.py:282-286), evaluated on the overridden configuration. -/
def effectiveVideo (cfg1 : Config) : Bool :=
  cfg1.image_provider == "wavespeed" && pipelineIsVideo cfg1.wavespeed_model

/-- Processing of one sample item (the body of the `for` loop,
dataset_creator.py:169-341).  The per-item `try` means an exception at any
step falls to the `except` at line 338: the loop continues with whatever
configuration mutations have happened so far, and no artifact is appended.
The output path is the base path handed to `_get_unique_file_path` (whose
behaviour is modelled separately); uniqueness does not affect the recorded
observations. -/
def processItem (cfg : Config) (generated : List Artifact) (it : SampleItem) :
    Config × List Artifact × ItemObs :=
  let ct := contentTypeOf it
  if ct == some "nsfw" && !cfg.nsfw_enabled then
    (cfg, generated, ⟨it.name, true, false, none⟩)
  else
    let saved := saveProfile cfg
    let cfg1 := applyContent cfg ct
    if it.failAt == some .readSample || it.failAt == some .genPrompt
        || it.failAt == some .writePrompt then
      -- the exception skips the restore at lines 294-302
      (cfg1, generated, ⟨it.name, false, true, none⟩)
    else
      let isv := effectiveVideo cfg1
      let cfg2 := restoreProfile cfg1 saved
      let ext := if isv then "mp4" else "png"
      let path :=
        if cfg2.generate_captions && cfg2.trigger_name != "" && !isv then
          cfg2.output_folder ++ "/lora_dataset/" ++ cfg2.trigger_name ++ "_"
            ++ pad4 (generated.length + 1) ++ "." ++ ext
        else
          cfg2.output_folder ++ "/" ++ stemOf it.name ++ "_generated." ++ ext
      if it.failAt == some .genMedia then
        (cfg2, generated, ⟨it.name, false, true, some cfg2⟩)
      else
        let generated2 :=
          if !isv then generated ++ [⟨path, it.name, generated.length + 1⟩]
          else generated
        (cfg2, generated2, ⟨it.name, false, false, some cfg2⟩)

/-- The whole sample loop (dataset_creator.py:169-341): every item is
processed in order; a caught exception only skips the rest of its own
iteration. -/
def runItems (cfg : Config) (generated : List Artifact) :
    List SampleItem → Config × List Artifact × List ItemObs
  | [] => (cfg, generated, [])
  | it :: rest =>
    let r1 := processItem cfg generated it
    let r2 := runItems r1.1 r1.2.1 rest
    (r2.1, r2.2.1, r1.2.2 :: r2.2.2)

/-- The caption pass (dataset_creator.py:400-454): one `try` per artifact,
`continue` on failure.  `capFails` injects which caption calls raise.  Each
pair records the artifact index and whether its caption was produced. -/
def runCaptionPass (arts : List Artifact) (capFails : Nat → Bool) : List (Nat × Bool) :=
  arts.map (fun a => (a.index, !capFails a.index))

/-- `PromptGenerator.setup_provider` (prompt_generator.py:27-56), with the
SDK-availability checks modelled as passing. -/
def promptSetup (c : Config) : Except String Unit :=
  if c.ai_provider = "gemini" then
    if c.gemini_api_key = "" then .error "gemini key" else .ok ()
  else if c.ai_provider = "openai" then
    if c.openai_api_key = "" then .error "openai key" else .ok ()
  else if c.ai_provider = "grok" then
    if c.grok_api_key = "" then .error "grok key" else .ok ()
  else .error "unknown provider"

/-- `ImageGenerator.setup_provider` (image_generator.py:33-39). -/
def imageSetup (c : Config) : Except String Unit :=
  if c.image_provider = "wavespeed" then
    if c.wavespeed_api_key = "" then .error "wavespeed key" else .ok ()
  else .error "unknown generation provider"

/-- A completed run: final configuration, artifacts, per-item observations and
the caption-pass record. -/
structure RunResult where
  finalConfig : Config
  artifacts : List Artifact
  itemObs : List ItemObs
  captionObs : List (Nat × Bool)
deriving DecidableEq

/-- The pipeline entry: generator construction raises configuration errors
before any item is processed (dataset_creator.py:31-35 constructs
`PromptGenerator` and `ImageGenerator`, whose `setup_provider` raise); the
item loop and caption pass then run to completion. -/
def runPipeline (cfg : Config) (items : List SampleItem) (capFails : Nat → Bool) :
    Except String RunResult :=
  match promptSetup cfg with
  | .error e => .error e
  | .ok _ =>
    match imageSetup cfg with
    | .error e => .error e
    | .ok _ =>
      let r := runItems cfg [] items
      .ok ⟨r.1, r.2.1, r.2.2, runCaptionPass r.2.1 capFails⟩

/-! ## Unique output paths (dataset_creator.py:53-74)

`_get_unique_file_path` works on a base path split by `pathlib` into parent,
stem and suffix; here the parent directory and stem are folded into one `stem`
string, the clock reading `datetime.now().strftime(...)` is the explicit
argument `ts`, and the filesystem is the list `fs` of existing paths. -/

/-- `f"{stem}_{timestamp}_{counter}{suffix}"` (dataset_creator.py:71). -/
def candName (stem ts suffix : String) (k : Nat) : String :=
  stem ++ "_" ++ ts ++ "_" ++ natRepr k ++ suffix

/-- The `while unique_path.exists()` counter loop (dataset_creator.py:69-72),
with fuel; `fs.length + 1` fuel always suffices (see `exists_free_cand`). -/
def searchCounter (fs : List String) (stem ts suffix : String) : Nat → Nat → String
  | 0, k => candName stem ts suffix k
  | fuel + 1, k =>
    if candName stem ts suffix k ∈ fs then searchCounter fs stem ts suffix fuel (k + 1)
    else candName stem ts suffix k

/-- `DatasetCreator._get_unique_file_path` (dataset_creator.py:53-74). -/
def getUniqueFilePath (fs : List String) (ts stem suffix : String) : String :=
  if (stem ++ suffix) ∈ fs then
    if (stem ++ "_" ++ ts ++ suffix) ∈ fs then
      searchCounter fs stem ts suffix (fs.length + 1) 1
    else stem ++ "_" ++ ts ++ suffix
  else stem ++ suffix

/-! ## Supporting lemmas -/

theorem natDigitsAux_val : ∀ fuel n, n < fuel → digitsVal (natDigitsAux fuel n) = n := by
  intro fuel
  induction fuel with
  | zero => intro n h; omega
  | succ f ih =>
    intro n h
    simp only [natDigitsAux]
    by_cases h0 : n = 0
    · simp [h0, digitsVal]
    · simp only [h0, if_false, digitsVal]
      rw [ih (n / 10) (by omega)]
      omega

theorem natDigitsAux_lt_ten : ∀ fuel n, ∀ d ∈ natDigitsAux fuel n, d < 10 := by
  intro fuel
  induction fuel with
  | zero => intro n d hd; simp [natDigitsAux] at hd
  | succ f ih =>
    intro n d hd
    simp only [natDigitsAux] at hd
    by_cases h0 : n = 0
    · simp [h0] at hd
    · simp only [h0, if_false, List.mem_cons] at hd
      rcases hd with h | h
      · omega
      · exact ih _ _ h

theorem digitChar_toNat (d : Nat) (h : d < 10) : (digitChar d).toNat = 48 + d := by
  interval_cases d <;> decide

theorem map_digitChar_cancel :
    ∀ l : List Nat, (∀ d ∈ l, d < 10) → (l.map digitChar).map (fun c => c.toNat - 48) = l := by
  intro l hl
  induction l with
  | nil => rfl
  | cons d ds ih =>
    simp only [List.map_cons, List.cons.injEq]
    constructor
    · rw [digitChar_toNat d (hl d (List.mem_cons_self d ds))]; omega
    · exact ih (fun x hx => hl x (List.mem_cons_of_mem d hx))

theorem natDigitsAux_full_inj {a b : Nat}
    (h : natDigitsAux (a + 1) a = natDigitsAux (b + 1) b) : a = b := by
  have ha := natDigitsAux_val (a + 1) a (by omega)
  have hb := natDigitsAux_val (b + 1) b (by omega)
  rw [h] at ha
  omega

theorem natRepr_inj {a b : Nat} (h : natRepr a = natRepr b) : a = b := by
  unfold natRepr at h
  by_cases ha : a = 0 <;> by_cases hb : b = 0
  · omega
  · exfalso
    simp only [ha, if_true, hb, if_false] at h
    have hdata : "0".data = ((natDigitsAux (b + 1) b).reverse.map digitChar) := by
      have := congrArg String.data h
      simpa using this
    have hb1 : natDigitsAux (b + 1) b ≠ [] := by
      simp [natDigitsAux, hb]
    rcases hd : natDigitsAux (b + 1) b with _ | ⟨d, ds⟩
    · exact hb1 hd
    · rw [hd] at hdata
      have hv := natDigitsAux_val (b + 1) b (by omega)
      rw [hd] at hv
      rcases hrev : (d :: ds).reverse with _ | ⟨x, xs⟩
      · simp at hrev
      · rw [hrev] at hdata
        simp only [List.map_cons] at hdata
        have hx0 : x ∈ d :: ds := by
          have : x ∈ (d :: ds).reverse := by rw [hrev]; exact List.mem_cons_self x xs
          simpa [or_comm] using this
        have hxlt : x < 10 := natDigitsAux_lt_ten (b + 1) b x (by rw [hd]; exact hx0)
        have hxs : xs.map digitChar = [] := by
          have := congrArg List.tail hdata
          simpa using this.symm
        have hxs0 : xs = [] := by
          cases xs with
          | nil => rfl
          | cons y ys => simp at hxs
        have hsingle : d :: ds = [x] := by
          have : (d :: ds).reverse = [x] := by rw [hrev, hxs0]
          have := congrArg List.reverse this
          simpa using this
        have hchar : '0' = digitChar x := by
          have := congrArg (fun l => l.headD ' ') hdata
          simpa using this
        have hx48 : (digitChar x).toNat = 48 + x := digitChar_toNat x hxlt
        have : x = 0 := by
          have h0 : ('0' : Char).toNat = 48 := by decide
          rw [← hchar] at hx48
          omega
        rw [hsingle, this] at hv
        simp [digitsVal] at hv
        exact hb hv.symm
  · exfalso
    simp only [ha, if_false, hb, if_true] at h
    have hdata : ((natDigitsAux (a + 1) a).reverse.map digitChar) = "0".data := by
      have := congrArg String.data h
      simpa using this
    have ha1 : natDigitsAux (a + 1) a ≠ [] := by
      simp [natDigitsAux, ha]
    rcases hd : natDigitsAux (a + 1) a with _ | ⟨d, ds⟩
    · exact ha1 hd
    · rw [hd] at hdata
      have hv := natDigitsAux_val (a + 1) a (by omega)
      rw [hd] at hv
      rcases hrev : (d :: ds).reverse with _ | ⟨x, xs⟩
      · simp at hrev
      · rw [hrev] at hdata
        simp only [List.map_cons] at hdata
        have hx0 : x ∈ d :: ds := by
          have : x ∈ (d :: ds).reverse := by rw [hrev]; exact List.mem_cons_self x xs
          simpa [or_comm] using this
        have hxlt : x < 10 := natDigitsAux_lt_ten (a + 1) a x (by rw [hd]; exact hx0)
        have hxs : xs.map digitChar = [] := by
          have := congrArg List.tail hdata
          simpa using this
        have hxs0 : xs = [] := by
          cases xs with
          | nil => rfl
          | cons y ys => simp at hxs
        have hsingle : d :: ds = [x] := by
          have : (d :: ds).reverse = [x] := by rw [hrev, hxs0]
          have := congrArg List.reverse this
          simpa using this
        have hchar : digitChar x = '0' := by
          have := congrArg (fun l => l.headD ' ') hdata
          simpa using this
        have hx48 : (digitChar x).toNat = 48 + x := digitChar_toNat x hxlt
        have : x = 0 := by
          have h0 : ('0' : Char).toNat = 48 := by decide
          rw [hchar] at hx48
          omega
        rw [hsingle, this] at hv
        simp [digitsVal] at hv
        exact ha hv.symm
  · simp only [ha, if_false, hb, if_false] at h
    have hdata := congrArg String.data h
    simp only at hdata
    have hmap :
        ((natDigitsAux (a + 1) a).reverse.map digitChar).map (fun c => c.toNat - 48)
          = ((natDigitsAux (b + 1) b).reverse.map digitChar).map (fun c => c.toNat - 48) := by
      rw [hdata]
    rw [map_digitChar_cancel _ (by intro d hd; exact natDigitsAux_lt_ten _ _ d (List.mem_reverse.mp hd)),
        map_digitChar_cancel _ (by intro d hd; exact natDigitsAux_lt_ten _ _ d (List.mem_reverse.mp hd))] at hmap
    exact natDigitsAux_full_inj (List.reverse_injective hmap)

theorem candName_inj (stem ts suffix : String) {j k : Nat}
    (h : candName stem ts suffix j = candName stem ts suffix k) : j = k := by
  unfold candName at h
  have hdata := congrArg String.data h
  simp only [String.data_append, List.append_assoc] at hdata
  have h1 := List.append_cancel_left hdata
  have h2 := List.append_cancel_left h1
  have h3 := List.append_cancel_left h2
  have h4 := List.append_cancel_left h3
  have h5 := List.append_cancel_right h4
  have h6 : natRepr j = natRepr k := by
    cases hj : natRepr j
    cases hk : natRepr k
    rw [hj, hk] at h5
    simp only at h5
    exact congrArg String.mk h5
  exact natRepr_inj h6

theorem searchCounter_not_mem (fs : List String) (stem ts suffix : String) :
    ∀ fuel k, (∃ j, k ≤ j ∧ j < k + fuel ∧ candName stem ts suffix j ∉ fs) →
      searchCounter fs stem ts suffix fuel k ∉ fs := by
  intro fuel
  induction fuel with
  | zero =>
    intro k h
    obtain ⟨j, hj1, hj2, _⟩ := h
    omega
  | succ f ih =>
    intro k h
    obtain ⟨j, hj1, hj2, hj3⟩ := h
    simp only [searchCounter]
    by_cases hmem : candName stem ts suffix k ∈ fs
    · simp only [hmem, if_true]
      refine ih (k + 1) ⟨j, ?_, by omega, hj3⟩
      rcases Nat.eq_or_lt_of_le hj1 with heq | hlt
      · exact absurd (heq ▸ hmem) hj3
      · omega
    · simp [hmem]

theorem exists_free_cand (fs : List String) (stem ts suffix : String) :
    ∃ j, 1 ≤ j ∧ j < 1 + (fs.length + 1) ∧ candName stem ts suffix j ∉ fs := by
  by_contra hcon
  push_neg at hcon
  have hsub : (Finset.Icc 1 (fs.length + 1)).image (candName stem ts suffix) ⊆ fs.toFinset := by
    intro x hx
    simp only [Finset.mem_image, Finset.mem_Icc] at hx
    obtain ⟨j, ⟨hj1, hj2⟩, rfl⟩ := hx
    exact List.mem_toFinset.mpr (hcon j hj1 (by omega))
  have hcard : ((Finset.Icc 1 (fs.length + 1)).image (candName stem ts suffix)).card
      = fs.length + 1 := by
    rw [Finset.card_image_of_injOn (fun a _ b _ hab => candName_inj stem ts suffix hab)]
    simp [Nat.card_Icc]
  have h1 := Finset.card_le_card hsub
  have h2 := fs.toFinset_card_le
  omega

theorem getUniqueFilePath_not_mem (fs : List String) (ts stem suffix : String) :
    getUniqueFilePath fs ts stem suffix ∉ fs := by
  unfold getUniqueFilePath
  by_cases h1 : (stem ++ suffix) ∈ fs
  · simp only [h1, if_true]
    by_cases h2 : (stem ++ "_" ++ ts ++ suffix) ∈ fs
    · simp only [h2, if_true]
      refine searchCounter_not_mem fs stem ts suffix (fs.length + 1) 1 ?_
      obtain ⟨j, hj1, hj2, hj3⟩ := exists_free_cand fs stem ts suffix
      exact ⟨j, hj1, by omega, hj3⟩
    · simp [h2]
  · simp [h1]

theorem saveProfile_restore (c : Config) (s : SavedProfile) :
    saveProfile (restoreProfile c s) = s := rfl

theorem runItems_obs_length : ∀ (items : List SampleItem) (cfg : Config) (g : List Artifact),
    ((runItems cfg g items).2.2).length = items.length := by
  intro items
  induction items with
  | nil => intro cfg g; rfl
  | cons it rest ih =>
    intro cfg g
    simp only [runItems, List.length_cons]
    rw [ih]

theorem processItem_artifact_cases (cfg : Config) (g : List Artifact) (it : SampleItem) :
    (processItem cfg g it).2.1 = g ∨
    ((processItem cfg g it).2.1.map (fun a => a.index)
        = g.map (fun a => a.index) ++ [g.length + 1]
     ∧ (processItem cfg g it).2.1.length = g.length + 1) := by
  unfold processItem
  by_cases h1 : (contentTypeOf it == some "nsfw" && !cfg.nsfw_enabled) = true
  · left; simp [h1]
  · rw [Bool.not_eq_true] at h1
    by_cases h2 : (it.failAt == some .readSample || it.failAt == some .genPrompt
        || it.failAt == some .writePrompt) = true
    · left; simp [h1, h2]
    · rw [Bool.not_eq_true] at h2
      by_cases h3 : (it.failAt == some FailPhase.genMedia) = true
      · left; simp [h1, h2, h3]
      · rw [Bool.not_eq_true] at h3
        by_cases h4 : effectiveVideo (applyContent cfg (contentTypeOf it)) = true
        · left; simp [h1, h2, h3, h4]
        · rw [Bool.not_eq_true] at h4
          right
          constructor
          · simp [h1, h2, h3, h4]
          · simp [h1, h2, h3, h4]

theorem processItem_video_no_artifact (cfg : Config) (g : List Artifact) (it : SampleItem)
    (h : effectiveVideo (applyContent cfg (contentTypeOf it)) = true) :
    (processItem cfg g it).2.1 = g := by
  unfold processItem
  by_cases h1 : (contentTypeOf it == some "nsfw" && !cfg.nsfw_enabled) = true
  · simp [h1]
  · rw [Bool.not_eq_true] at h1
    by_cases h2 : (it.failAt == some .readSample || it.failAt == some .genPrompt
        || it.failAt == some .writePrompt) = true
    · simp [h1, h2]
    · rw [Bool.not_eq_true] at h2
      by_cases h3 : (it.failAt == some FailPhase.genMedia) = true
      · simp [h1, h2, h3]
      · rw [Bool.not_eq_true] at h3
        simp [h1, h2, h3, h]

theorem runItems_index_invariant :
    ∀ (items : List SampleItem) (cfg : Config) (g : List Artifact),
      g.map (fun a => a.index) = List.range' 1 g.length →
      ((runItems cfg g items).2.1).map (fun a => a.index)
        = List.range' 1 ((runItems cfg g items).2.1).length := by
  intro items
  induction items with
  | nil => intro cfg g h; simpa [runItems] using h
  | cons it rest ih =>
    intro cfg g h
    simp only [runItems]
    rcases processItem_artifact_cases cfg g it with hg | ⟨hmap, hlen⟩
    · rw [hg]
      exact ih _ g h
    · refine ih _ _ ?_
      rw [hmap, h, hlen, List.range'_concat]
      simp [Nat.add_comm]

/-! ## Concrete inputs used by counterexamples and witnesses -/

/-- A baseline configuration with an NSFW override for the generation model. -/
def leakConfig : Config :=
  { wavespeed_model := "img-model"
    wavespeed_model_nsfw := "wan/video-x"
    nsfw_enabled := true
    image_provider := "wavespeed"
    output_folder := "o" }

/-- An NSFW-classified sample whose prompt-generation call raises. -/
def leakItemFail : SampleItem :=
  { name := "a.png", path := "s/nsfw/a.png", failAt := some .genPrompt }

/-- A following unclassified sample that succeeds. -/
def leakItemNext : SampleItem := { name := "b.png", path := "s/other/b.png" }

/-- A configuration that passes both provider setups. -/
def okConfig : Config :=
  { ai_provider := "openai"
    openai_api_key := "k"
    image_provider := "wavespeed"
    wavespeed_api_key := "k"
    wavespeed_model := "seedream-v4"
    output_folder := "o" }

/-- Claim C2, counterexample: with an NSFW override in force, an exception in
prompt generation for the first item skips the restore of the baseline
profile (there is no `finally`), so the second item — and in particular its
output-path computation — observes the first item's override
`wan/video-x` instead of the baseline `img-model`. -/
theorem c2_counterexample :
    (((runItems leakConfig [] [leakItemFail, leakItemNext]).2.2.getD 1
        ⟨"", false, false, none⟩).cfgAtPath.map (fun c => c.wavespeed_model))
      = some "wan/video-x"
    ∧ leakConfig.wavespeed_model = "img-model"
    ∧ (runItems leakConfig [] [leakItemFail, leakItemNext]).1.wavespeed_model
      = "wan/video-x" :=
  ⟨rfl, rfl, rfl⟩

/-- Claim C2 (amended): for a non-skipped item, if neither reading the sample
nor prompt generation nor the prompt write raises, the baseline profile is
restored before the output path is computed and also holds after the item
(even when media generation then fails); but if one of those earlier steps
raises, the item ends without restoring: the overridden profile persists into
subsequent iterations and no path is computed for that item. -/
theorem c2_amended :
    ∀ (cfg : Config) (g : List Artifact) (it : SampleItem),
      (contentTypeOf it == some "nsfw" && !cfg.nsfw_enabled) = false →
      ((it.failAt = none ∨ it.failAt = some .genMedia) →
         (processItem cfg g it).2.2.cfgAtPath.map saveProfile = some (saveProfile cfg)
         ∧ saveProfile (processItem cfg g it).1 = saveProfile cfg)
      ∧ ((it.failAt = some .readSample ∨ it.failAt = some .genPrompt
            ∨ it.failAt = some .writePrompt) →
         (processItem cfg g it).1 = applyContent cfg (contentTypeOf it)
         ∧ (processItem cfg g it).2.2.cfgAtPath = none) := by
  intro cfg g it h1
  constructor
  · intro hf
    have h2 : (it.failAt == some FailPhase.readSample || it.failAt == some FailPhase.genPrompt
        || it.failAt == some FailPhase.writePrompt) = false := by
      rcases hf with hf | hf <;> simp [hf]
    rcases hf with hf | hf
    · have h3 : (it.failAt == some FailPhase.genMedia) = false := by simp [hf]
      unfold processItem
      simp [h1, h2, h3, saveProfile_restore]
    · have h3 : (it.failAt == some FailPhase.genMedia) = true := by simp [hf]
      unfold processItem
      simp [h1, h2, h3, saveProfile_restore]
  · intro hf
    have h2 : (it.failAt == some FailPhase.readSample || it.failAt == some FailPhase.genPrompt
        || it.failAt == some FailPhase.writePrompt) = true := by
      rcases hf with hf | hf | hf <;> simp [hf]
    unfold processItem
    simp [h1, h2]

/-- Claim C2 amended, witness at a concrete non-failing item. -/
theorem c2_amended_witness :
    (processItem leakConfig [] leakItemNext).2.2.cfgAtPath.map saveProfile
      = some (saveProfile leakConfig)
    ∧ saveProfile (processItem leakConfig [] leakItemNext).1 = saveProfile leakConfig :=
  (c2_amended leakConfig [] leakItemNext (by decide)).1 (Or.inl rfl)

/-- Claim C5: per-item failures are isolated.  The pipeline aborts exactly
when one of the provider setups fails; given a successful setup, the run
completes with one observation per sample item no matter which per-item steps
raise, and the caption pass attempts every recorded artifact no matter which
caption calls raise. -/
theorem c5_failure_isolation :
    (∀ (cfg : Config) (items : List SampleItem) (capF : Nat → Bool),
       (runPipeline cfg items capF).isOk
         = ((promptSetup cfg).isOk && (imageSetup cfg).isOk))
    ∧ (∀ (cfg : Config) (items : List SampleItem) (capF : Nat → Bool) (res : RunResult),
         runPipeline cfg items capF = .ok res →
         res.itemObs.length = items.length
         ∧ res.captionObs.length = res.artifacts.length) := by
  constructor
  · intro cfg items capF
    unfold runPipeline
    cases hp : promptSetup cfg with
    | error e => simp [Except.isOk, Except.toBool]
    | ok u =>
      cases hi : imageSetup cfg with
      | error e => simp [Except.isOk, Except.toBool]
      | ok v => simp [Except.isOk, Except.toBool]
  · intro cfg items capF res h
    unfold runPipeline at h
    cases hp : promptSetup cfg with
    | error e => rw [hp] at h; cases h
    | ok u =>
      rw [hp] at h
      cases hi : imageSetup cfg with
      | error e => rw [hi] at h; cases h
      | ok v =>
        rw [hi] at h
        cases h
        constructor
        · exact runItems_obs_length items cfg []
        · simp [runCaptionPass]

/-- Claim C5, witness: a configuration that passes setup runs to completion on
an empty item list. -/
theorem c5_witness :
    (⟨okConfig, [], [], []⟩ : RunResult).itemObs.length = ([] : List SampleItem).length
    ∧ (⟨okConfig, [], [], []⟩ : RunResult).captionObs.length
      = (⟨okConfig, [], [], []⟩ : RunResult).artifacts.length :=
  c5_failure_isolation.2 okConfig [] (fun _ => false) ⟨okConfig, [], [], []⟩ rfl

/-- Claim C7: artifact sequence indices are contiguous from 1 in enumeration
order; an item classified as video contributes no artifact (and hence no
index); and the caption pass ranges over exactly the recorded artifact list. -/
theorem c7_indices_contiguous :
    (∀ (cfg : Config) (items : List SampleItem),
       ((runItems cfg [] items).2.1).map (fun a => a.index)
         = List.range' 1 ((runItems cfg [] items).2.1).length)
    ∧ (∀ (cfg : Config) (g : List Artifact) (it : SampleItem),
         effectiveVideo (applyContent cfg (contentTypeOf it)) = true →
         (processItem cfg g it).2.1 = g)
    ∧ (∀ (cfg : Config) (items : List SampleItem) (capF : Nat → Bool) (res : RunResult),
         runPipeline cfg items capF = .ok res →
         res.captionObs = res.artifacts.map (fun a => (a.index, !capF a.index))) := by
  refine ⟨?_, processItem_video_no_artifact, ?_⟩
  · intro cfg items
    exact runItems_index_invariant items cfg [] rfl
  · intro cfg items capF res h
    unfold runPipeline at h
    cases hp : promptSetup cfg with
    | error e => rw [hp] at h; cases h
    | ok u =>
      rw [hp] at h
      cases hi : imageSetup cfg with
      | error e => rw [hi] at h; cases h
      | ok v => rw [hi] at h; cases h; rfl

/-- Claim C7, witness: a video-classified item appends no artifact, and a
completed run reports caption observations exactly over its artifacts. -/
theorem c7_witness :
    (processItem leakConfig []
        { name := "c.png", path := "s/nsfw/c.png" : SampleItem }).2.1 = []
    ∧ (⟨okConfig, [], [], []⟩ : RunResult).captionObs
      = (⟨okConfig, [], [], []⟩ : RunResult).artifacts.map (fun a => (a.index, !(fun _ => false) a.index)) :=
  ⟨c7_indices_contiguous.2.1 leakConfig [] _ (by decide),
   c7_indices_contiguous.2.2 okConfig [] (fun _ => false) ⟨okConfig, [], [], []⟩ rfl⟩

/-- One-step unfolding of the retry loop. -/
theorem wsLoopAux_unfold (iv : Bool) (p : String) (o : Nat → AttemptOutcome)
    (k fuel : Nat) (acc : List (Nat × String)) :
    wsLoopAux iv p o k fuel acc
      = match classifyAttempt iv p (o k) with
        | .success s => (.completed s k, acc)
        | .fatalClass => (.failed k, acc)
        | .retryClass w =>
          let acc2 := match w with
                      | some q => acc ++ [(k, q)]
                      | none => acc
          match fuel with
          | 0 => (.failed k, acc2)
          | fuel + 1 => wsLoopAux iv p o (k + 1) fuel acc2 := by
  rw [wsLoopAux.eq_def]

/-- Claim C1: the code diverges from the claim on 4xx statuses.  The claim
(and the inline comment at image_generator.py:191) says a 400-499 status is
fatal with no retry, but the `RuntimeError` raised at line 196 is caught by
`except (RuntimeError, ValueError)` at line 352, which continues the loop
while attempts remain: an HTTP 404 on attempt 1 is retried, and a clean 200 on
attempt 2 completes the call. -/
theorem c1_4xx_is_retried :
    (wsLoop false "out.png"
        (fun k => if k = 1 then .http 404 {}
                  else .http 200 { top := { outputs := some ["http://x/y.png"] } }))
      = (.completed (.savedFromUrl "http://x/y.png" "out.png") 2, [])
    ∧ (wsLoop false "out.png"
        (fun k => if k = 1 then .http 404 {}
                  else .http 200 { top := { outputs := some ["http://x/y.png"] } })).1
      ≠ .failed 1 :=
  ⟨rfl, by decide⟩

/-- Claim C3, counterexample: a 2xx body with no recognized artifact field is
NOT "never retried" — on attempt 1 the raw body is written to
`out_response.json` and the `ValueError` is caught by the handler at
image_generator.py:352, which continues the loop; a recognizable response on
attempt 2 then completes the call. -/
theorem c3_counterexample :
    (wsLoop false "out.png"
        (fun k => if k = 1 then .http 200 { top := {} }
                  else .http 200 { top := { outputs := some ["u"] } }))
      = (.completed (.savedFromUrl "u" "out.png") 2, [(1, "out_response.json")])
    ∧ (wsLoop false "out.png"
        (fun k => if k = 1 then .http 200 { top := {} }
                  else .http 200 { top := { outputs := some ["u"] } })).1
      ≠ .failed 1 :=
  ⟨rfl, by decide⟩

/-- Claim C3 (amended): on a SUCCESS-classified response the unwrapped body is
searched in priority order (`image`/`video`, then `image_url`/`video_url`,
then `outputs[0]`, then the inline base64 field); when nothing is found, the
raw JSON body is written to a `_response.json` path derived from the intended
output path and the shape-mismatch failure is raised — but that failure is
retried like an API error: with attempts remaining the loop moves to the next
attempt, and only on the final (3rd) attempt does it propagate. -/
theorem c3_amended :
    (∀ (d : WsDict) (u : String), d.image = some u → urlCandidateImage d = some u)
    ∧ (∀ (d : WsDict) (u : String), d.image = none → d.image_url = some u →
         urlCandidateImage d = some u)
    ∧ (∀ (d : WsDict) (u : String) (rest : List String), d.image = none → d.image_url = none →
         d.outputs = some (u :: rest) → urlCandidateImage d = some u)
    ∧ (∀ (d : WsDict) (u : String), d.video = some u → urlCandidateVideo d = some u)
    ∧ (∀ (d : WsDict) (u : String), d.video = none → d.video_url = some u →
         urlCandidateVideo d = some u)
    ∧ (∀ (d : WsDict) (u : String) (rest : List String), d.video = none → d.video_url = none →
         d.outputs = some (u :: rest) → urlCandidateVideo d = some u)
    ∧ (∀ (d : WsDict) (p u : String), urlCandidateImage d = some u → u ≠ "" →
         resolveResult false d p = .savedFromUrl u p)
    ∧ (∀ (d : WsDict) (p : String), truthy (urlCandidateImage d) = false →
         d.image_base64.isSome = true → resolveResult false d p = .savedFromBase64 p)
    ∧ (∀ (d : WsDict) (p : String), truthy (urlCandidateImage d) = false →
         d.image_base64 = none →
         resolveResult false d p
           = .shapeMismatch (strReplace (strReplace p ".png" "_response.json")
                               ".jpg" "_response.json"))
    ∧ (∀ (d : WsDict) (p : String), truthy (urlCandidateVideo d) = false →
         d.video_base64 = none →
         resolveResult true d p
           = .shapeMismatch (strReplace (strReplace p ".png" "_response.json")
                               ".mp4" "_response.json"))
    ∧ (∀ (iv : Bool) (p : String) (o : Nat → AttemptOutcome) (k fuel : Nat)
         (acc : List (Nat × String)) (body : WsBody) (dp : String),
         o k = .http 200 body → hasApiError (unwrap body) = false →
         resolveResult iv (unwrap body) p = .shapeMismatch dp →
         wsLoopAux iv p o k (fuel + 1) acc = wsLoopAux iv p o (k + 1) fuel (acc ++ [(k, dp)])
         ∧ wsLoopAux iv p o k 0 acc = (.failed k, acc ++ [(k, dp)])) := by
  refine ⟨?_, ?_, ?_, ?_, ?_, ?_, ?_, ?_, ?_, ?_, ?_⟩
  · intro d u h; simp [urlCandidateImage, h]
  · intro d u h1 h2; simp [urlCandidateImage, h1, h2]
  · intro d u rest h1 h2 h3; simp [urlCandidateImage, h1, h2, h3]
  · intro d u h; simp [urlCandidateVideo, h]
  · intro d u h1 h2; simp [urlCandidateVideo, h1, h2]
  · intro d u rest h1 h2 h3; simp [urlCandidateVideo, h1, h2, h3]
  · intro d p u h hu; simp [resolveResult, h, hu]
  · intro d p h hb
    obtain ⟨s, hs⟩ := Option.isSome_iff_exists.mp hb
    cases hc : urlCandidateImage d with
    | none => simp [resolveResult, hc, hs]
    | some u =>
      have hu : u = "" := by
        rw [hc] at h
        simpa [truthy] using h
      simp [resolveResult, hc, hu, hs]
  · intro d p h hb
    cases hc : urlCandidateImage d with
    | none => simp [resolveResult, hc, hb]
    | some u =>
      have hu : u = "" := by
        rw [hc] at h
        simpa [truthy] using h
      simp [resolveResult, hc, hu, hb]
  · intro d p h hb
    cases hc : urlCandidateVideo d with
    | none => simp [resolveResult, hc, hb]
    | some u =>
      have hu : u = "" := by
        rw [hc] at h
        simpa [truthy] using h
      simp [resolveResult, hc, hu, hb]
  · intro iv p o k fuel acc body dp ho herr hres
    have hcls : classifyAttempt iv p (o k) = .retryClass (some dp) := by
      rw [ho]
      simp [classifyAttempt, herr, hres]
    constructor
    · rw [wsLoopAux_unfold, hcls]
    · rw [wsLoopAux_unfold, hcls]

/-- Claim C3 amended, witness: an empty body on an image request is a shape
mismatch recorded next to the output path. -/
theorem c3_amended_witness :
    resolveResult false {} "o.png" = .shapeMismatch "o_response.json" := by
  have h := c3_amended.2.2.2.2.2.2.2.2.1 {} "o.png" (by decide) rfl
  have h2 : strReplace (strReplace "o.png" ".png" "_response.json") ".jpg" "_response.json"
      = "o_response.json" := rfl
  rw [h2] at h
  exact h

/-- Claim C4: a timeout or other network exception in an attempt is fatal on
that same attempt: the loop raises immediately, performing no further
attempt, for any attempt number and any remaining budget. -/
theorem c4_network_timeout_fatal :
    ∀ (isv : Bool) (p : String) (o : Nat → AttemptOutcome) (k fuel : Nat)
      (acc : List (Nat × String)),
      (o k = .timeoutExc → wsLoopAux isv p o k fuel acc = (.failed k, acc))
      ∧ (o k = .networkExc → wsLoopAux isv p o k fuel acc = (.failed k, acc)) := by
  intro isv p o k fuel acc
  constructor
  · intro h
    have hcls : classifyAttempt isv p (o k) = .fatalClass := by rw [h]; rfl
    simp only [wsLoopAux, hcls]
  · intro h
    have hcls : classifyAttempt isv p (o k) = .fatalClass := by rw [h]; rfl
    simp only [wsLoopAux, hcls]

/-- Claim C4, witness: a timeout on attempt 1 and a network error on attempt 1
both end the call at attempt 1. -/
theorem c4_witness :
    wsLoopAux false "p" (fun _ => .timeoutExc) 1 2 [] = (.failed 1, [])
    ∧ wsLoopAux false "p" (fun _ => .networkExc) 1 2 [] = (.failed 1, []) :=
  ⟨(c4_network_timeout_fatal false "p" (fun _ => .timeoutExc) 1 2 []).1 rfl,
   (c4_network_timeout_fatal false "p" (fun _ => .networkExc) 1 2 []).2 rfl⟩

/-- Claim C6: with `n ≤ 2` reference images, the image-edit payload carries
exactly `n+1` base64 images — the identity images in order followed by the
scene image — in synchronous mode; the video payload carries exactly the
scene image, independent of the supplied reference images, in asynchronous
mode. -/
theorem c6_payload_images :
    (∀ (cfg : Config) (refs : List (List Nat)) (sample : List Nat) (prompt : String),
       refs.length ≤ 2 →
       (buildImageEditPayload cfg refs sample prompt).images
           = refs.map b64encode ++ [b64encode sample]
       ∧ (buildImageEditPayload cfg refs sample prompt).images.length = refs.length + 1
       ∧ (buildImageEditPayload cfg refs sample prompt).enable_sync_mode = true)
    ∧ (∀ (refs refs2 : List (List Nat)) (sample : List Nat) (prompt : String),
       buildVideoPayload refs sample prompt = buildVideoPayload refs2 sample prompt
       ∧ (buildVideoPayload refs sample prompt).image = b64encode sample
       ∧ (buildVideoPayload refs sample prompt).enable_sync_mode = false) := by
  constructor
  · intro cfg refs sample prompt h
    have ht : refs.take 2 = refs := List.take_of_length_le h
    refine ⟨?_, ?_, rfl⟩
    · simp [buildImageEditPayload, ht]
    · simp [buildImageEditPayload, ht]
  · intro refs refs2 sample prompt
    exact ⟨rfl, rfl, rfl⟩

/-- Claim C6, witness at 2 reference images. -/
theorem c6_witness :
    (buildImageEditPayload {} [[0], [1]] [2] "x").images
        = [[0], [1]].map b64encode ++ [b64encode [2]]
    ∧ (buildImageEditPayload {} [[0], [1]] [2] "x").images.length = 2 + 1
    ∧ (buildImageEditPayload {} [[0], [1]] [2] "x").enable_sync_mode = true :=
  c6_payload_images.1 {} [[0], [1]] [2] "x" (by decide)

/-- Claim C8: the Seedream resolution-tier map is the pure function
`1k ↦ 1920*1920`, `2k ↦ 2048*2048`, `4k ↦ 4096*4096` with any other tier
defaulting to `1920*1920`; a Seedream model gets it as the `size` field (and
no `resolution` field), while a non-Seedream model gets the tier string
itself as `resolution` (and no `size` field). -/
theorem c8_resolution_tiers :
    (resolutionMap "1k" = "1920*1920" ∧ resolutionMap "2k" = "2048*2048"
       ∧ resolutionMap "4k" = "4096*4096")
    ∧ (∀ t : String, t ≠ "1k" → t ≠ "2k" → t ≠ "4k" → resolutionMap t = "1920*1920")
    ∧ (∀ (cfg : Config) (refs : List (List Nat)) (sample : List Nat) (prompt : String),
         isSeedream cfg.wavespeed_model = true →
         (buildImageEditPayload cfg refs sample prompt).size
             = some (resolutionMap cfg.wavespeed_resolution)
         ∧ (buildImageEditPayload cfg refs sample prompt).resolution = none)
    ∧ (∀ (cfg : Config) (refs : List (List Nat)) (sample : List Nat) (prompt : String),
         isSeedream cfg.wavespeed_model = false → cfg.wavespeed_resolution ≠ "" →
         (buildImageEditPayload cfg refs sample prompt).resolution
             = some cfg.wavespeed_resolution
         ∧ (buildImageEditPayload cfg refs sample prompt).size = none) := by
  refine ⟨⟨rfl, rfl, rfl⟩, ?_, ?_, ?_⟩
  · intro t h1 h2 h4
    simp [resolutionMap, h1, h2, h4]
  · intro cfg refs sample prompt h
    constructor
    · simp [buildImageEditPayload, h]
    · simp [buildImageEditPayload, h]
  · intro cfg refs sample prompt h hr
    constructor
    · simp [buildImageEditPayload, h, hr]
    · simp [buildImageEditPayload, h]

/-- Claim C8, witness: an unknown tier defaults, a Seedream model uses `size`,
a non-Seedream model passes the tier through as `resolution`. -/
theorem c8_witness :
    resolutionMap "8k" = "1920*1920"
    ∧ (buildImageEditPayload { wavespeed_model := "bytedance/seedream-v4", wavespeed_resolution := "2k" } [] [0] "x").size = some (resolutionMap "2k")
    ∧ (buildImageEditPayload { wavespeed_model := "google/nano-banana-pro", wavespeed_resolution := "2k" } [] [0] "x").resolution = some "2k" :=
  ⟨c8_resolution_tiers.2.1 "8k" (by decide) (by decide) (by decide),
   (c8_resolution_tiers.2.2.1 { wavespeed_model := "bytedance/seedream-v4", wavespeed_resolution := "2k" } [] [0] "x" (by decide)).1,
   (c8_resolution_tiers.2.2.2 { wavespeed_model := "google/nano-banana-pro", wavespeed_resolution := "2k" } [] [0] "x" (by decide) (by decide)).1⟩

/-- Claim C9, counterexample: the resolver is not idempotent on an unchanged
filesystem when the base path already exists and the clock reading differs
between the two calls.  With `a.png` existing and nothing created in between,
the first call returns `a_T1.png` and the second `a_T2.png` — two different
paths, refuting the unconditional twice-in-succession idempotence the claim
states. -/
theorem c9_counterexample :
    getUniqueFilePath ["a.png"] "T1" "a" ".png" = "a_T1.png"
    ∧ getUniqueFilePath ["a.png"] "T2" "a" ".png" = "a_T2.png"
    ∧ ("a_T1.png" : String) ≠ "a_T2.png"
    ∧ ("a_T1.png" : String) ∉ ["a.png"] :=
  ⟨rfl, rfl, by decide, by decide⟩

/-- Claim C9 (amended): the unique-path resolver never returns an existing
path (so it never silently overwrites); when the base path does not exist,
both successive calls return the base path itself for any clock readings —
the idempotence the claim states holds in this case, and with an unchanged
clock reading in general, but not when the base path already exists and the
clock reading changes between the calls (see the counterexample); and once a
file exists at the first returned path, a later call returns a different,
not-yet-existing path. -/
theorem c9_unique_path :
    (∀ (fs : List String) (ts1 ts2 stem suffix : String),
       (stem ++ suffix) ∉ fs →
       getUniqueFilePath fs ts1 stem suffix = stem ++ suffix
       ∧ getUniqueFilePath fs ts2 stem suffix = getUniqueFilePath fs ts1 stem suffix)
    ∧ (∀ (fs : List String) (ts stem suffix : String),
       getUniqueFilePath fs ts stem suffix ∉ fs)
    ∧ (∀ (fs : List String) (ts1 ts2 stem suffix : String),
       getUniqueFilePath (getUniqueFilePath fs ts1 stem suffix :: fs) ts2 stem suffix
         ≠ getUniqueFilePath fs ts1 stem suffix) := by
  refine ⟨?_, getUniqueFilePath_not_mem, ?_⟩
  · intro fs ts1 ts2 stem suffix h
    constructor
    · simp [getUniqueFilePath, h]
    · simp [getUniqueFilePath, h]
  · intro fs ts1 ts2 stem suffix
    intro heq
    have h := getUniqueFilePath_not_mem (getUniqueFilePath fs ts1 stem suffix :: fs) ts2 stem suffix
    rw [heq] at h
    exact h (List.mem_cons_self _ _)

/-- Claim C9, witness: a fresh base path is returned unchanged under two
different clock readings. -/
theorem c9_witness :
    getUniqueFilePath ["b.png"] "T1" "a" ".png" = "a" ++ ".png"
    ∧ getUniqueFilePath ["b.png"] "T2" "a" ".png" = getUniqueFilePath ["b.png"] "T1" "a" ".png" :=
  c9_unique_path.1 ["b.png"] "T1" "T2" "a" ".png" (by decide)

/-- Claim C10: every model the generator dispatches to the video path is also
classified as video by the pipeline, and the pipeline additionally treats any
model whose lowercased name contains `video` as video: `foo-videogen` is
video for the pipeline (extension and artifact handling) but is dispatched to
the image-edit path by the generator. -/
theorem c10_video_classification :
    (∀ m : String, genDispatchIsVideo m = true → pipelineIsVideo m = true)
    ∧ pipelineIsVideo "foo-videogen" = true
    ∧ genDispatchIsVideo "foo-videogen" = false := by
  refine ⟨?_, by decide, by decide⟩
  intro m h
  unfold genDispatchIsVideo at h
  unfold pipelineIsVideo
  rcases Bool.or_eq_true_iff.mp h with h1 | h1 <;> simp [h1]

/-- Claim C10, witness: a model the generator dispatches as video. -/
theorem c10_witness :
    genDispatchIsVideo "wavespeed-ai/wan-2.2/image-to-video" = true
    ∧ pipelineIsVideo "wavespeed-ai/wan-2.2/image-to-video" = true :=
  ⟨by decide, c10_video_classification.1 "wavespeed-ai/wan-2.2/image-to-video" (by decide)⟩
